import Mathlib

/-!
Verification development for the Bayut marketplace synthetic-data generator
(`scripts/generatedata.py`).

The script is linear Python: it seeds `random` and `numpy`, fixes
configuration constants, generates four flat tables (users, listings, leads,
transactions) by repeated random sampling, writes each table to a CSV file,
and finally appends each table to a PostgreSQL database inside a single
try/except block.

Embedding choices:
* Dates are modelled as `Int` (days); the configured window is
  `[startDate, endDate]` where `endDate` stands for `datetime.now()` and
  `startDate = endDate - 730`.
* Prices and amounts are modelled as `ℚ`; `round(x, 2)` is modelled by
  `round2`, Python's round-half-to-even at two decimal places.
* Each call to a random primitive is modelled by a component of a per-row
  draw structure.  A well-formedness predicate records exactly the range
  the corresponding primitive is documented to sample from
  (`random.randint(a, b)` gives an integer in `[a, b]`,
  `random.uniform(a, b)` a value in `[a, b]`,
  `random.choices(lst, weights)` an element of `lst` — modelled as an index
  below `lst.length` — and `fake.date_between(a, b)` a date in `[a, b]`).
  Components produced by the seeded `random` module are distinguished from
  those produced by Faker's own generator (which the script never seeds).
* The pandas lookup
  `listings_df[listings_df['listing_id'] == listing_id]['created_date'].values[0]`
  is modelled as filter, map, and `head?`; `.values[0]` on an empty frame
  raises, hence the `Option`.
-/

/-- One row of the users table; fields as appended to `users_data`. -/
structure User where
  user_id : Nat
  signup_date : Int
  emirate : String
  user_type : String
deriving DecidableEq

/-- One row of the listings table; fields as appended to `listings_data`. -/
structure Listing where
  listing_id : Nat
  user_id : Nat
  category : String
  emirate : String
  price : ℚ
  created_date : Int
  status : String
deriving DecidableEq

/-- One row of the leads table; fields as appended to `leads_data`. -/
structure Lead where
  lead_id : Nat
  listing_id : Nat
  user_id : Nat
  lead_date : Int
deriving DecidableEq

/-- One row of the transactions table; fields as appended to
`transactions_data`. -/
structure Transaction where
  transaction_id : Nat
  user_id : Nat
  amount : ℚ
  transaction_date : Int
  transaction_type : String
deriving DecidableEq

/-- The configuration constants of STEP 3 and the date window of STEP 4.
`startDate`/`endDate` embed `START_DATE`/`END_DATE`. -/
structure Config where
  numUsers : Nat
  numListings : Nat
  numLeads : Nat
  numTransactions : Nat
  startDate : Int
  endDate : Int

/-- `NUM_USERS = 5000`. -/
def NUM_USERS : Nat := 5000

/-- `NUM_LISTINGS = 8000`. -/
def NUM_LISTINGS : Nat := 8000

/-- `NUM_LEADS = 15000`. -/
def NUM_LEADS : Nat := 15000

/-- `NUM_TRANSACTIONS = 2000`. -/
def NUM_TRANSACTIONS : Nat := 2000

/-- The default configuration: the script's constants, with the 730-day
window ending at `datetime.now()` (the parameter `e`). -/
def cfgDefault (e : Int) : Config :=
  { numUsers := NUM_USERS
    numListings := NUM_LISTINGS
    numLeads := NUM_LEADS
    numTransactions := NUM_TRANSACTIONS
    startDate := e - 730
    endDate := e }

/-- `EMIRATES` list from STEP 4, in source order. -/
def EMIRATES : List String :=
  ["Dubai", "Abu Dhabi", "Sharjah", "Ajman", "Ras Al Khaimah", "Fujairah",
   "Umm Al Quwain"]

/-- `CATEGORIES` list from STEP 4, in source order. -/
def CATEGORIES : List String :=
  ["Apartments", "Villas", "Townhouses", "Penthouses", "Commercial", "Land"]

/-- `USER_TYPES = ['buyer', 'seller', 'agent']`. -/
def USER_TYPES : List String := ["buyer", "seller", "agent"]

/-- The listing status population `['active', 'sold', 'expired']`. -/
def STATUSES : List String := ["active", "sold", "expired"]

/-- The transaction type population `['subscription', 'featured_listing']`. -/
def TRANSACTION_TYPES : List String := ["subscription", "featured_listing"]

/-- The subscription tier list `[500, 1000, 2000, 5000]`. -/
def SUBSCRIPTION_TIERS : List ℚ := [500, 1000, 2000, 5000]

/-- The `base_price` dictionary, keyed by category. Keys not in the
dictionary would raise in Python; the generator only looks up members of
`CATEGORIES`, so the fallback `0` is never reached. -/
def base_price (category : String) : ℚ :=
  if category = "Apartments" then 800000
  else if category = "Villas" then 2500000
  else if category = "Townhouses" then 1800000
  else if category = "Penthouses" then 5000000
  else if category = "Commercial" then 1500000
  else if category = "Land" then 1000000
  else 0

/-- The `emirate_multiplier` dictionary, keyed by emirate. -/
def emirate_multiplier (emirate : String) : ℚ :=
  if emirate = "Dubai" then 13 / 10
  else if emirate = "Abu Dhabi" then 12 / 10
  else if emirate = "Sharjah" then 8 / 10
  else if emirate = "Ajman" then 6 / 10
  else if emirate = "Ras Al Khaimah" then 7 / 10
  else if emirate = "Fujairah" then 6 / 10
  else if emirate = "Umm Al Quwain" then 5 / 10
  else 0

/-- Python's `round` to an integer: round half to even. -/
def pythonRound (q : ℚ) : Int :=
  if q - (Int.floor q : ℚ) < 1 / 2 then Int.floor q
  else if 1 / 2 < q - (Int.floor q : ℚ) then Int.floor q + 1
  else if Int.floor q % 2 = 0 then Int.floor q else Int.floor q + 1

/-- Python's `round(q, 2)`: round half to even at two decimal places. -/
def round2 (q : ℚ) : ℚ := (pythonRound (q * 100) : ℚ) / 100

/-- The random draws consumed by one iteration of the users loop.
`signup_date` is produced by `fake.date_between` (Faker's own generator,
which the script never seeds); `emirate_idx` and `user_type_idx` are the
indices selected by the two `random.choices` calls (the seeded module). -/
structure UserDraw where
  signup_date : Int
  emirate_idx : Nat
  user_type_idx : Nat
deriving DecidableEq

/-- Ranges the user-loop primitives sample from. -/
abbrev UserDrawWF (cfg : Config) (d : UserDraw) : Prop :=
  cfg.startDate ≤ d.signup_date ∧ d.signup_date ≤ cfg.endDate ∧
    d.emirate_idx < 7 ∧ d.user_type_idx < 3

/-- One iteration of the users loop (STEP 5). -/
def generate_user (i : Nat) (d : UserDraw) : User :=
  { user_id := i
    signup_date := d.signup_date
    emirate := EMIRATES.getD d.emirate_idx ""
    user_type := USER_TYPES.getD d.user_type_idx "" }

/-- The users loop `for i in range(1, NUM_USERS + 1)`. -/
def generate_users (cfg : Config) (draws : Nat → UserDraw) : List User :=
  (List.range cfg.numUsers).map (fun k => generate_user (k + 1) (draws (k + 1)))

/-- The random draws consumed by one iteration of the listings loop.
`created_date` comes from `fake.date_between` (Faker, unseeded);
`user_id` from `random.randint(1, NUM_USERS)`; `price_u` from
`random.uniform(0.7, 1.5)`; the indices from `random.choices`. -/
structure ListingDraw where
  user_id : Nat
  category_idx : Nat
  emirate_idx : Nat
  price_u : ℚ
  created_date : Int
  status_idx : Nat
deriving DecidableEq

/-- Ranges the listings-loop primitives sample from. -/
abbrev ListingDrawWF (cfg : Config) (d : ListingDraw) : Prop :=
  1 ≤ d.user_id ∧ d.user_id ≤ cfg.numUsers ∧
    d.category_idx < 6 ∧ d.emirate_idx < 7 ∧
    (7 / 10 : ℚ) ≤ d.price_u ∧ d.price_u ≤ 3 / 2 ∧
    cfg.startDate ≤ d.created_date ∧ d.created_date ≤ cfg.endDate ∧
    d.status_idx < 3

/-- One iteration of the listings loop (STEP 6):
`price = base_price * emirate_multiplier * random.uniform(0.7, 1.5)`,
stored as `round(price, 2)`. -/
def generate_listing (i : Nat) (d : ListingDraw) : Listing :=
  let category := CATEGORIES.getD d.category_idx ""
  let emirate := EMIRATES.getD d.emirate_idx ""
  let price := base_price category * emirate_multiplier emirate * d.price_u
  { listing_id := i
    user_id := d.user_id
    category := category
    emirate := emirate
    price := round2 price
    created_date := d.created_date
    status := STATUSES.getD d.status_idx "" }

/-- The listings loop `for i in range(1, NUM_LISTINGS + 1)`. -/
def generate_listings (cfg : Config) (draws : Nat → ListingDraw) : List Listing :=
  (List.range cfg.numListings).map
    (fun k => generate_listing (k + 1) (draws (k + 1)))

/-- The pandas lookup
`listings_df[listings_df['listing_id'] == listing_id]['created_date'].values[0]`:
filter the rows, project the `created_date` column, take element 0.
`none` models the `IndexError` raised when the filtered frame is empty. -/
def lookup_created (listings : List Listing) (lid : Nat) : Option Int :=
  (((listings.filter (fun l => l.listing_id == lid)).map
    Listing.created_date)).head?

/-- The random draws consumed by one iteration of the leads loop.
`listing_id` and `user_id` come from `random.randint` (seeded module);
`lead_date_of s` is the date `fake.date_between(start_date=s,
end_date=END_DATE)` returns (Faker, unseeded), as a function of the start
date looked up from the listings table. -/
structure LeadDraw where
  listing_id : Nat
  user_id : Nat
  lead_date_of : Int → Int

/-- Ranges the leads-loop primitives sample from. -/
abbrev LeadDrawWF (cfg : Config) (d : LeadDraw) : Prop :=
  1 ≤ d.listing_id ∧ d.listing_id ≤ cfg.numListings ∧
    1 ≤ d.user_id ∧ d.user_id ≤ cfg.numUsers ∧
    ∀ s : Int, s ≤ cfg.endDate →
      s ≤ d.lead_date_of s ∧ d.lead_date_of s ≤ cfg.endDate

/-- One iteration of the leads loop (STEP 7): look up the referenced
listing's creation date, then draw the lead date from
`[listing_created, END_DATE]`. -/
def generate_lead (listings : List Listing) (i : Nat) (d : LeadDraw) :
    Option Lead :=
  match lookup_created listings d.listing_id with
  | none => none
  | some c =>
      some
        { lead_id := i
          listing_id := d.listing_id
          user_id := d.user_id
          lead_date := d.lead_date_of c }

/-- Run the leads loop over the given list of indices, stopping with `none`
if any iteration raises. -/
def generate_leads_from (listings : List Listing) (draws : Nat → LeadDraw) :
    List Nat → Option (List Lead)
  | [] => some []
  | k :: ks =>
      match generate_lead listings k (draws k) with
      | none => none
      | some l =>
          match generate_leads_from listings draws ks with
          | none => none
          | some ls => some (l :: ls)

/-- The leads loop `for i in range(1, NUM_LEADS + 1)`. -/
def generate_leads (cfg : Config) (listings : List Listing)
    (draws : Nat → LeadDraw) : Option (List Lead) :=
  generate_leads_from listings draws ((List.range cfg.numLeads).map (· + 1))

/-- The random draws consumed by one iteration of the transactions loop.
All of these come from the seeded `random` module except
`transaction_date`, which comes from `fake.date_between` (Faker,
unseeded). -/
structure TxDraw where
  user_id : Nat
  type_idx : Nat
  tier_idx : Nat
  featured_amount : ℚ
  transaction_date : Int
deriving DecidableEq

/-- Ranges the transactions-loop primitives sample from. -/
abbrev TxDrawWF (cfg : Config) (d : TxDraw) : Prop :=
  1 ≤ d.user_id ∧ d.user_id ≤ cfg.numUsers ∧
    d.type_idx < 2 ∧ d.tier_idx < 4 ∧
    (100 : ℚ) ≤ d.featured_amount ∧ d.featured_amount ≤ 500 ∧
    cfg.startDate ≤ d.transaction_date ∧ d.transaction_date ≤ cfg.endDate

/-- One iteration of the transactions loop (STEP 8). -/
def generate_transaction (i : Nat) (d : TxDraw) : Transaction :=
  let transaction_type := TRANSACTION_TYPES.getD d.type_idx ""
  let amount : ℚ :=
    if transaction_type = "subscription" then SUBSCRIPTION_TIERS.getD d.tier_idx 0
    else d.featured_amount
  { transaction_id := i
    user_id := d.user_id
    amount := round2 amount
    transaction_date := d.transaction_date
    transaction_type := transaction_type }

/-- The transactions loop `for i in range(1, NUM_TRANSACTIONS + 1)`. -/
def generate_transactions (cfg : Config) (draws : Nat → TxDraw) :
    List Transaction :=
  (List.range cfg.numTransactions).map
    (fun k => generate_transaction (k + 1) (draws (k + 1)))

/-- The CSV header row written for `users.csv`: the `users_data` dict keys
in insertion order (`to_csv` with `index=False`). -/
def users_csv_columns : List String :=
  ["user_id", "signup_date", "emirate", "user_type"]

/-- The CSV header row written for `listings.csv`. -/
def listings_csv_columns : List String :=
  ["listing_id", "user_id", "category", "emirate", "price", "created_date",
   "status"]

/-- The CSV header row written for `leads.csv`. -/
def leads_csv_columns : List String :=
  ["lead_id", "listing_id", "user_id", "lead_date"]

/-- The CSV header row written for `transactions.csv`. -/
def transactions_csv_columns : List String :=
  ["transaction_id", "user_id", "amount", "transaction_date",
   "transaction_type"]

/-- The four `to_csv` outputs of STEP 9: file name and header row, in the
order the script writes them. -/
def csv_outputs : List (String × List String) :=
  [("users.csv", users_csv_columns),
   ("listings.csv", listings_csv_columns),
   ("leads.csv", leads_csv_columns),
   ("transactions.csv", transactions_csv_columns)]

/-- Attribute names of the User entity as written in the data model of the
spec (section 3); kept separate from the code-derived columns so the two
can be compared. -/
def spec_user_attributes : List String :=
  ["id", "signup_date", "region", "role"]

/-- Attribute names of the Listing entity in section 3 of the spec. -/
def spec_listing_attributes : List String :=
  ["id", "owner_user_id", "category", "region", "price", "created_date",
   "status"]

/-- Attribute names of the Lead entity in section 3 of the spec. -/
def spec_lead_attributes : List String :=
  ["id", "listing_id", "user_id", "lead_date"]

/-- Attribute names of the Transaction entity in section 3 of the spec. -/
def spec_transaction_attributes : List String :=
  ["id", "user_id", "amount", "transaction_date", "kind"]

/-- The renaming under which the code's users columns realise the spec's
User attributes. -/
def user_attr_rename (a : String) : String :=
  if a = "id" then "user_id"
  else if a = "region" then "emirate"
  else if a = "role" then "user_type"
  else a

/-- The renaming under which the code's listings columns realise the spec's
Listing attributes. -/
def listing_attr_rename (a : String) : String :=
  if a = "id" then "listing_id"
  else if a = "owner_user_id" then "user_id"
  else if a = "region" then "emirate"
  else a

/-- The renaming under which the code's leads columns realise the spec's
Lead attributes. -/
def lead_attr_rename (a : String) : String :=
  if a = "id" then "lead_id"
  else a

/-- The renaming under which the code's transactions columns realise the
spec's Transaction attributes. -/
def transaction_attr_rename (a : String) : String :=
  if a = "id" then "transaction_id"
  else if a = "kind" then "transaction_type"
  else a

/-- Payload of a sink operation: one generated table. -/
inductive TableData where
  | users : List User → TableData
  | listings : List Listing → TableData
  | leads : List Lead → TableData
  | transactions : List Transaction → TableData
deriving DecidableEq

/-- One side-effecting operation of STEPs 9 and 10: a `to_csv` call, a
`to_sql` call, or a `print`. -/
inductive SinkOp where
  | csv : String → TableData → SinkOp
  | sql : String → TableData → SinkOp
  | msg : SinkOp
deriving DecidableEq

/-- Whether an operation is a `to_csv` call. -/
def is_csv : SinkOp → Bool
  | SinkOp.csv _ _ => true
  | _ => false

/-- Whether an operation is a `to_sql` call targeting table `t`. -/
def is_sql_to (t : String) : SinkOp → Bool
  | SinkOp.sql t2 _ => t2 == t
  | _ => false

/-- Execution state of the sink phase: the files written so far, the
database contents, whether an exception is propagating, how many `to_sql`
calls were attempted, how many operations raised, and the operations that
actually executed. -/
structure ExecSt where
  files : String → Option TableData
  db : String → List TableData
  raised : Bool
  sqlCalls : Nat
  failedOps : Nat
  trace : List SinkOp

/-- Execute one sink operation.  A propagating exception skips everything;
`to_csv` overwrites the named file; `to_sql` with `if_exists='append'`
appends the rows to the named table, or raises when the store fails (the
oracle `fails` says whether the n-th database call fails). -/
def execOp (fails : Nat → Bool) (s : ExecSt) (op : SinkOp) : ExecSt :=
  if s.raised then s
  else
    match op with
    | SinkOp.csv n d =>
        { s with files := fun m => if m = n then some d else s.files m
                 trace := s.trace ++ [SinkOp.csv n d] }
    | SinkOp.sql t d =>
        if fails s.sqlCalls then
          { s with raised := true
                   sqlCalls := s.sqlCalls + 1
                   failedOps := s.failedOps + 1 }
        else
          { s with db := fun m => if m = t then s.db m ++ [d] else s.db m
                   sqlCalls := s.sqlCalls + 1
                   trace := s.trace ++ [SinkOp.sql t d] }
    | SinkOp.msg =>
        { s with trace := s.trace ++ [SinkOp.msg] }

/-- Execute a list of sink operations in order. -/
def execOps (fails : Nat → Bool) (s : ExecSt) : List SinkOp → ExecSt
  | [] => s
  | op :: ops => execOps fails (execOp fails s op) ops

/-- STEP 9: the four `to_csv` calls, in source order, outside the try
block. -/
def csv_export_ops (pu : List User) (pl : List Listing) (pd : List Lead)
    (pt : List Transaction) : List SinkOp :=
  [SinkOp.csv "users.csv" (TableData.users pu),
   SinkOp.csv "listings.csv" (TableData.listings pl),
   SinkOp.csv "leads.csv" (TableData.leads pd),
   SinkOp.csv "transactions.csv" (TableData.transactions pt)]

/-- STEP 10, body of the try block: the connection print, the four
`to_sql(..., if_exists='append')` calls interleaved with prints, and the
success summary prints. -/
def db_load_ops (pu : List User) (pl : List Listing) (pd : List Lead)
    (pt : List Transaction) : List SinkOp :=
  [SinkOp.msg,
   SinkOp.sql "users" (TableData.users pu), SinkOp.msg,
   SinkOp.sql "listings" (TableData.listings pl), SinkOp.msg,
   SinkOp.sql "leads" (TableData.leads pd), SinkOp.msg,
   SinkOp.sql "transactions" (TableData.transactions pt), SinkOp.msg,
   SinkOp.msg]

/-- The `except Exception` handler: only prints. -/
def handler_ops : List SinkOp := [SinkOp.msg]

/-- Initial sink state over pre-existing files `f0` and database contents
`d0`. -/
def init_state (f0 : String → Option TableData)
    (d0 : String → List TableData) : ExecSt :=
  { files := f0, db := d0, raised := false, sqlCalls := 0, failedOps := 0,
    trace := [] }

/-- Outcome of STEPs 9 and 10. -/
structure RunResult where
  final : ExecSt
  handlerCount : Nat
  exitedNormally : Bool

/-- STEPs 9 and 10 as the script runs them: the four CSV exports, then the
try block of database loads; if an exception propagates out of the try
block the handler runs once and the exception is cleared.  The process
exits normally exactly when no exception is left propagating. -/
def run_export_and_load (pu : List User) (pl : List Listing)
    (pd : List Lead) (pt : List Transaction) (fails : Nat → Bool)
    (f0 : String → Option TableData) (d0 : String → List TableData) :
    RunResult :=
  let s1 := execOps fails (init_state f0 d0) (csv_export_ops pu pl pd pt)
  let s2 := execOps fails s1 (db_load_ops pu pl pd pt)
  if s2.raised then
    let s3 := execOps fails { s2 with raised := false } handler_ops
    { final := s3, handlerCount := 1, exitedNormally := !s3.raised }
  else
    { final := s2, handlerCount := 0, exitedNormally := !s2.raised }

/-- The lead the leads loop produces at iteration `k`, given the draw
streams: the lookup of `created_date` succeeds and returns the referenced
listing draw's creation date. -/
def lead_at (ld : Nat → ListingDraw) (dd : Nat → LeadDraw) (k : Nat) : Lead :=
  { lead_id := k
    listing_id := (dd k).listing_id
    user_id := (dd k).user_id
    lead_date := (dd k).lead_date_of ((ld (dd k).listing_id).created_date) }


/-- A small concrete configuration used to instantiate the theorems at
concrete inputs: two rows per table, window `[0, 730]`. -/
def cfgW : Config :=
  { numUsers := 2, numListings := 2, numLeads := 2, numTransactions := 2,
    startDate := 0, endDate := 730 }

/-- A concrete well-formed user draw stream. -/
def udW : Nat → UserDraw :=
  fun _ => { signup_date := 5, emirate_idx := 0, user_type_idx := 0 }

/-- A concrete well-formed listing draw stream. -/
def ldW : Nat → ListingDraw :=
  fun _ => { user_id := 1, category_idx := 0, emirate_idx := 0,
             price_u := 1, created_date := 10, status_idx := 0 }

/-- A concrete well-formed lead draw stream; `fake.date_between(s, END)`
returning `s` itself. -/
def ddW : Nat → LeadDraw :=
  fun _ => { listing_id := 1, user_id := 2, lead_date_of := fun s => s }

/-- A concrete well-formed transaction draw stream (subscription branch). -/
def tdW : Nat → TxDraw :=
  fun _ => { user_id := 1, type_idx := 0, tier_idx := 0,
             featured_amount := 250, transaction_date := 100 }

/-- A concrete well-formed transaction draw stream (featured-listing
branch). -/
def tdW2 : Nat → TxDraw :=
  fun _ => { user_id := 2, type_idx := 1, tier_idx := 1,
             featured_amount := 250, transaction_date := 100 }

/-- User draws of a first hypothetical run: the seeded components
(`emirate_idx`, `user_type_idx`) together with the dates Faker's unseeded
generator happened to return on that run. -/
def ud_runA : Nat → UserDraw :=
  fun _ => { signup_date := 0, emirate_idx := 0, user_type_idx := 0 }

/-- User draws of a second hypothetical run with the same seed: the seeded
components are identical to `ud_runA`, but Faker's unseeded generator
returned different (still in-window) dates. -/
def ud_runB : Nat → UserDraw :=
  fun _ => { signup_date := 730, emirate_idx := 0, user_type_idx := 0 }

lemma pythonRound_ge_floor (q : ℚ) : Int.floor q ≤ pythonRound q := by
  unfold pythonRound
  split_ifs <;> omega

lemma pythonRound_le_of_le {q : ℚ} {B : Int} (h : q ≤ (B : ℚ)) :
    pythonRound q ≤ B := by
  have hf : Int.floor q ≤ B := by
    have h2 := Int.floor_le_floor h
    simpa using h2
  unfold pythonRound
  split_ifs with h1 h2 h3
  · exact hf
  · have hlt : (Int.floor q : ℚ) < (B : ℚ) := by linarith
    have : Int.floor q < B := by exact_mod_cast hlt
    omega
  · exact hf
  · have heq : q - (Int.floor q : ℚ) = 1 / 2 :=
      le_antisymm (not_lt.mp h2) (not_lt.mp h1)
    have hlt : (Int.floor q : ℚ) < (B : ℚ) := by linarith
    have : Int.floor q < B := by exact_mod_cast hlt
    omega

lemma pythonRound_ge_of_le {A : Int} {q : ℚ} (h : (A : ℚ) ≤ q) :
    A ≤ pythonRound q :=
  le_trans (Int.le_floor.mpr h) (pythonRound_ge_floor q)

lemma le_round2 {A : Int} {q : ℚ} (h : (A : ℚ) ≤ q) : (A : ℚ) ≤ round2 q := by
  have h1 : (100 * A : Int) ≤ pythonRound (q * 100) := by
    apply pythonRound_ge_of_le
    push_cast
    linarith
  have h2 : ((100 * A : Int) : ℚ) ≤ (pythonRound (q * 100) : ℚ) := by
    exact_mod_cast h1
  unfold round2
  push_cast at h2
  linarith

lemma round2_le {B : Int} {q : ℚ} (h : q ≤ (B : ℚ)) : round2 q ≤ (B : ℚ) := by
  have h1 : pythonRound (q * 100) ≤ (100 * B : Int) := by
    apply pythonRound_le_of_le
    push_cast
    linarith
  have h2 : (pythonRound (q * 100) : ℚ) ≤ ((100 * B : Int) : ℚ) := by
    exact_mod_cast h1
  unfold round2
  push_cast at h2
  linarith

lemma round2_pos_of_one_le {q : ℚ} (h : (1 : ℚ) ≤ q) : 0 < round2 q := by
  have h2 : ((1 : Int) : ℚ) ≤ round2 q := le_round2 (by exact_mod_cast h)
  push_cast at h2
  linarith

lemma base_price_lb {i : Nat} (hi : i < 6) :
    (800000 : ℚ) ≤ base_price (CATEGORIES.getD i "") := by
  interval_cases i <;> decide

lemma emirate_multiplier_lb {i : Nat} (hi : i < 7) :
    (1 / 2 : ℚ) ≤ emirate_multiplier (EMIRATES.getD i "") := by
  interval_cases i <;>
    simp only [EMIRATES, List.getD_cons_zero, List.getD_cons_succ] <;>
    unfold emirate_multiplier <;>
    (split_ifs with h1 h2 h3 h4 h5 h6 h7 <;> try norm_num)
  exact absurd rfl h1
  exact absurd rfl h2
  exact absurd rfl h3
  exact absurd rfl h4
  exact absurd rfl h5
  exact absurd rfl h6
  exact absurd rfl h7

lemma pythonRound_intCast (z : Int) : pythonRound (z : ℚ) = z := by
  unfold pythonRound
  rw [Int.floor_intCast]
  simp

lemma round2_intCast (z : Int) : round2 (z : ℚ) = (z : ℚ) := by
  unfold round2
  have h : ((z : ℚ)) * 100 = ((z * 100 : Int) : ℚ) := by push_cast; ring
  rw [h, pythonRound_intCast]
  push_cast
  ring

lemma listing_price_raw_ge_one {b m u : ℚ} (hb : (800000 : ℚ) ≤ b)
    (hm : (1 / 2 : ℚ) ≤ m) (hu : (7 / 10 : ℚ) ≤ u) :
    (1 : ℚ) ≤ b * m * u := by
  have h2 : (800000 : ℚ) * (1 / 2) ≤ b * m :=
    mul_le_mul hb hm (by norm_num) (by linarith)
  have h3 : (800000 : ℚ) * (1 / 2) * (7 / 10) ≤ b * m * u :=
    mul_le_mul h2 hu (by norm_num) (by nlinarith)
  linarith

lemma filter_map_eq {α β : Type} (f : α → β) (p : β → Bool) :
    ∀ l : List α, (l.map f).filter p = (l.filter (fun a => p (f a))).map f := by
  intro l
  induction l with
  | nil => rfl
  | cons a as ih =>
      simp only [List.map_cons, List.filter_cons]
      cases h : p (f a) <;> simp [h, ih]

lemma range_filter_succ_eq {M lid : Nat} (h1 : 1 ≤ lid) (h2 : lid ≤ M) :
    (List.range M).filter (fun k => k + 1 == lid) = [lid - 1] := by
  induction M with
  | zero => omega
  | succ M ih =>
      rw [List.range_succ, List.filter_append]
      by_cases hcase : lid = M + 1
      · have hnil : (List.range M).filter (fun k => k + 1 == lid) = [] := by
          rw [List.filter_eq_nil_iff]
          intro k hk
          have := List.mem_range.mp hk
          simp only [beq_iff_eq]
          omega
        have htail : (List.filter (fun k => k + 1 == lid) [M]) = [M] := by
          simp [List.filter_cons, hcase]
        rw [hnil, htail]
        simp
        omega
      · have hle : lid ≤ M := by omega
        have htail : (List.filter (fun k => k + 1 == lid) [M]) = [] := by
          simp only [List.filter_cons, List.filter_nil]
          have : ¬(M + 1 == lid) = true := by
            simp only [beq_iff_eq]
            omega
          simp [this]
        rw [ih hle, htail]
        simp

lemma generate_listings_filter (cfg : Config) (ld : Nat → ListingDraw)
    {lid : Nat} (h1 : 1 ≤ lid) (h2 : lid ≤ cfg.numListings) :
    (generate_listings cfg ld).filter (fun l => l.listing_id == lid) =
      [generate_listing lid (ld lid)] := by
  unfold generate_listings
  rw [filter_map_eq]
  have hpred :
      (fun k => (generate_listing (k + 1) (ld (k + 1))).listing_id == lid) =
        (fun k : Nat => k + 1 == lid) := rfl
  rw [hpred, range_filter_succ_eq h1 h2]
  have hsub : lid - 1 + 1 = lid := by omega
  simp [hsub]

lemma lookup_created_generate_listings (cfg : Config) (ld : Nat → ListingDraw)
    {lid : Nat} (h1 : 1 ≤ lid) (h2 : lid ≤ cfg.numListings) :
    lookup_created (generate_listings cfg ld) lid =
      some ((ld lid).created_date) := by
  unfold lookup_created
  rw [generate_listings_filter cfg ld h1 h2]
  rfl

lemma generate_lead_eq_some (cfg : Config) (ld : Nat → ListingDraw)
    (dd : Nat → LeadDraw) {k : Nat} (h1 : 1 ≤ (dd k).listing_id)
    (h2 : (dd k).listing_id ≤ cfg.numListings) :
    generate_lead (generate_listings cfg ld) k (dd k) =
      some (lead_at ld dd k) := by
  unfold generate_lead
  rw [lookup_created_generate_listings cfg ld h1 h2]
  rfl

lemma generate_leads_from_eq_some (listings : List Listing)
    (draws : Nat → LeadDraw) (h : Nat → Lead) :
    ∀ ks : List Nat,
      (∀ k ∈ ks, generate_lead listings k (draws k) = some (h k)) →
      generate_leads_from listings draws ks = some (ks.map h) := by
  intro ks
  induction ks with
  | nil => intro _; rfl
  | cons a as ih =>
      intro H
      have ha : generate_lead listings a (draws a) = some (h a) :=
        H a (List.mem_cons_self a as)
      have has : generate_leads_from listings draws as = some (as.map h) :=
        ih (fun k hk => H k (List.mem_cons_of_mem a hk))
      unfold generate_leads_from
      rw [ha, has]
      rfl

lemma generate_leads_eq_some (cfg : Config) (ld : Nat → ListingDraw)
    (dd : Nat → LeadDraw)
    (hdd : ∀ k, 1 ≤ (dd k).listing_id ∧ (dd k).listing_id ≤ cfg.numListings) :
    generate_leads cfg (generate_listings cfg ld) dd =
      some (((List.range cfg.numLeads).map (· + 1)).map (lead_at ld dd)) := by
  unfold generate_leads
  apply generate_leads_from_eq_some
  intro k _
  exact generate_lead_eq_some cfg ld dd (hdd k).1 (hdd k).2

lemma mem_generate_listings {cfg : Config} {ld : Nat → ListingDraw}
    {l : Listing} (hl : l ∈ generate_listings cfg ld) :
    ∃ k, k < cfg.numListings ∧ l = generate_listing (k + 1) (ld (k + 1)) := by
  unfold generate_listings at hl
  rcases List.mem_map.mp hl with ⟨k, hk, hfk⟩
  exact ⟨k, List.mem_range.mp hk, hfk.symm⟩

lemma mem_generate_transactions {cfg : Config} {td : Nat → TxDraw}
    {t : Transaction} (ht : t ∈ generate_transactions cfg td) :
    ∃ k, k < cfg.numTransactions ∧
      t = generate_transaction (k + 1) (td (k + 1)) := by
  unfold generate_transactions at ht
  rcases List.mem_map.mp ht with ⟨k, hk, hfk⟩
  exact ⟨k, List.mem_range.mp hk, hfk.symm⟩

lemma execOp_raised_id (fails : Nat → Bool) (s : ExecSt) (op : SinkOp)
    (h : s.raised = true) : execOp fails s op = s := by
  unfold execOp
  rw [if_pos h]

lemma execOps_raised_id (fails : Nat → Bool) (ops : List SinkOp) :
    ∀ s : ExecSt, s.raised = true → execOps fails s ops = s := by
  induction ops with
  | nil => intro s _; rfl
  | cons op ops ih =>
      intro s h
      unfold execOps
      rw [execOp_raised_id fails s op h]
      exact ih s h

lemma execOp_csv_eq (fails : Nat → Bool) (s : ExecSt) (n : String)
    (d : TableData) (h : s.raised = false) :
    execOp fails s (SinkOp.csv n d) =
      { s with files := fun m => if m = n then some d else s.files m
               trace := s.trace ++ [SinkOp.csv n d] } := by
  unfold execOp
  rw [if_neg (by simp [h])]

lemma execOp_msg_eq (fails : Nat → Bool) (s : ExecSt)
    (h : s.raised = false) :
    execOp fails s SinkOp.msg =
      { s with trace := s.trace ++ [SinkOp.msg] } := by
  unfold execOp
  rw [if_neg (by simp [h])]

lemma execOp_sql_fail_eq (fails : Nat → Bool) (s : ExecSt) (t : String)
    (d : TableData) (h : s.raised = false)
    (hf : fails s.sqlCalls = true) :
    execOp fails s (SinkOp.sql t d) =
      { s with raised := true
               sqlCalls := s.sqlCalls + 1
               failedOps := s.failedOps + 1 } := by
  unfold execOp
  rw [if_neg (by simp [h])]
  simp only [hf, if_true]

lemma execOp_sql_ok_eq (fails : Nat → Bool) (s : ExecSt) (t : String)
    (d : TableData) (h : s.raised = false)
    (hf : fails s.sqlCalls = false) :
    execOp fails s (SinkOp.sql t d) =
      { s with db := fun m => if m = t then s.db m ++ [d] else s.db m
               sqlCalls := s.sqlCalls + 1
               trace := s.trace ++ [SinkOp.sql t d] } := by
  unfold execOp
  rw [if_neg (by simp [h])]
  simp only [hf, Bool.false_eq_true, if_false]

lemma execOp_trace_cases (fails : Nat → Bool) (s : ExecSt) (op : SinkOp) :
    (execOp fails s op).trace = s.trace ∨
      (execOp fails s op).trace = s.trace ++ [op] := by
  by_cases h : s.raised = true
  · rw [execOp_raised_id fails s op h]
    exact Or.inl rfl
  · have h' : s.raised = false := eq_false_of_ne_true h
    cases op with
    | csv n d =>
        rw [execOp_csv_eq fails s n d h']
        exact Or.inr rfl
    | msg =>
        rw [execOp_msg_eq fails s h']
        exact Or.inr rfl
    | sql t d =>
        by_cases hf : fails s.sqlCalls = true
        · rw [execOp_sql_fail_eq fails s t d h' hf]
          exact Or.inl rfl
        · rw [execOp_sql_ok_eq fails s t d h' (eq_false_of_ne_true hf)]
          exact Or.inr rfl

lemma execOps_trace_sublist (fails : Nat → Bool) (ops : List SinkOp) :
    ∀ s : ExecSt, ∃ tail : List SinkOp,
      (execOps fails s ops).trace = s.trace ++ tail ∧ tail.Sublist ops := by
  induction ops with
  | nil => intro s; exact ⟨[], (List.append_nil _).symm, List.nil_sublist []⟩
  | cons op ops ih =>
      intro s
      obtain ⟨tail2, ht2, hs2⟩ := ih (execOp fails s op)
      rcases execOp_trace_cases fails s op with h0 | h0
      · refine ⟨tail2, ?_, ?_⟩
        · rw [execOps, ht2, h0]
        · exact List.Sublist.cons op hs2
      · refine ⟨op :: tail2, ?_, ?_⟩
        · rw [execOps, ht2, h0]
          simp
        · exact List.Sublist.cons₂ op hs2

lemma execOp_files_eq (fails : Nat → Bool) (s : ExecSt) (op : SinkOp)
    (h : is_csv op = false) : (execOp fails s op).files = s.files := by
  by_cases hr : s.raised = true
  · rw [execOp_raised_id fails s op hr]
  · have h' : s.raised = false := eq_false_of_ne_true hr
    cases op with
    | csv n d => simp [is_csv] at h
    | msg => rw [execOp_msg_eq fails s h']
    | sql t d =>
        by_cases hf : fails s.sqlCalls = true
        · rw [execOp_sql_fail_eq fails s t d h' hf]
        · rw [execOp_sql_ok_eq fails s t d h' (eq_false_of_ne_true hf)]

lemma execOps_files_of_no_csv (fails : Nat → Bool) (ops : List SinkOp)
    (h : ∀ op ∈ ops, is_csv op = false) :
    ∀ s : ExecSt, (execOps fails s ops).files = s.files := by
  induction ops with
  | nil => intro s; rfl
  | cons op ops ih =>
      intro s
      unfold execOps
      rw [ih (fun o ho => h o (List.mem_cons_of_mem op ho))]
      exact execOp_files_eq fails s op (h op (List.mem_cons_self op ops))

lemma execOp_db_extends (fails : Nat → Bool) (s : ExecSt) (op : SinkOp)
    (t : String) : ∃ x, (execOp fails s op).db t = s.db t ++ x := by
  by_cases hr : s.raised = true
  · rw [execOp_raised_id fails s op hr]
    exact ⟨[], by simp⟩
  · have h' : s.raised = false := eq_false_of_ne_true hr
    cases op with
    | csv n d =>
        rw [execOp_csv_eq fails s n d h']
        exact ⟨[], by simp⟩
    | msg =>
        rw [execOp_msg_eq fails s h']
        exact ⟨[], by simp⟩
    | sql t2 d =>
        by_cases hf : fails s.sqlCalls = true
        · rw [execOp_sql_fail_eq fails s t2 d h' hf]
          exact ⟨[], by simp⟩
        · rw [execOp_sql_ok_eq fails s t2 d h' (eq_false_of_ne_true hf)]
          by_cases ht : t = t2
          · exact ⟨[d], by simp [ht]⟩
          · exact ⟨[], by simp [ht]⟩

lemma execOps_db_extends (fails : Nat → Bool) (ops : List SinkOp) :
    ∀ (s : ExecSt) (t : String),
      ∃ x, (execOps fails s ops).db t = s.db t ++ x := by
  induction ops with
  | nil => intro s t; exact ⟨[], by simp [execOps]⟩
  | cons op ops ih =>
      intro s t
      obtain ⟨x2, hx2⟩ := ih (execOp fails s op) t
      obtain ⟨x1, hx1⟩ := execOp_db_extends fails s op t
      refine ⟨x1 ++ x2, ?_⟩
      rw [execOps, hx2, hx1, List.append_assoc]

lemma execOps_failed_count (fails : Nat → Bool) (ops : List SinkOp) :
    ∀ s : ExecSt, s.raised = false →
      (execOps fails s ops).failedOps =
        s.failedOps + ((execOps fails s ops).raised).toNat := by
  induction ops with
  | nil =>
      intro s h
      simp [execOps, h]
  | cons op ops ih =>
      intro s h
      cases op with
      | csv n d =>
          rw [execOps, execOp_csv_eq fails s n d h]
          exact ih _ h
      | msg =>
          rw [execOps, execOp_msg_eq fails s h]
          exact ih _ h
      | sql t d =>
          by_cases hf : fails s.sqlCalls = true
          · rw [execOps, execOp_sql_fail_eq fails s t d h hf,
              execOps_raised_id fails ops _ rfl]
            simp
          · rw [execOps,
              execOp_sql_ok_eq fails s t d h (eq_false_of_ne_true hf)]
            exact ih _ h

lemma csv_phase_eq (fails : Nat → Bool) (f0 : String → Option TableData)
    (d0 : String → List TableData) (pu : List User) (pl : List Listing)
    (pd : List Lead) (pt : List Transaction) :
    execOps fails (init_state f0 d0) (csv_export_ops pu pl pd pt) =
      { files := fun m =>
          if m = "transactions.csv" then some (TableData.transactions pt)
          else if m = "leads.csv" then some (TableData.leads pd)
          else if m = "listings.csv" then some (TableData.listings pl)
          else if m = "users.csv" then some (TableData.users pu)
          else f0 m
        db := d0
        raised := false
        sqlCalls := 0
        failedOps := 0
        trace := csv_export_ops pu pl pd pt } := rfl

lemma db_load_ops_no_csv (pu : List User) (pl : List Listing)
    (pd : List Lead) (pt : List Transaction) :
    ∀ op ∈ db_load_ops pu pl pd pt, is_csv op = false := by
  intro op hop
  fin_cases hop <;> rfl

lemma handler_ops_no_csv : ∀ op ∈ handler_ops, is_csv op = false := by
  intro op hop
  fin_cases hop
  rfl

lemma db_load_ops_countP_csv (pu : List User) (pl : List Listing)
    (pd : List Lead) (pt : List Transaction) :
    (db_load_ops pu pl pd pt).countP is_csv = 0 := by
  simp [db_load_ops, is_csv, List.countP_cons]

lemma handler_ops_countP_csv : handler_ops.countP is_csv = 0 := rfl

lemma csv_export_ops_countP_sql (pu : List User) (pl : List Listing)
    (pd : List Lead) (pt : List Transaction) (t : String) :
    (csv_export_ops pu pl pd pt).countP (is_sql_to t) = 0 := by
  simp [csv_export_ops, is_sql_to, List.countP_cons]

lemma handler_ops_countP_sql (t : String) :
    handler_ops.countP (is_sql_to t) = 0 := rfl

lemma db_load_ops_countP_sql_le_one (pu : List User) (pl : List Listing)
    (pd : List Lead) (pt : List Transaction) (t : String) :
    (db_load_ops pu pl pd pt).countP (is_sql_to t) ≤ 1 := by
  by_cases hu : "users" = t
  · subst hu
    simp [db_load_ops, is_sql_to, List.countP_cons]
  · by_cases hl : "listings" = t
    · subst hl
      simp [db_load_ops, is_sql_to, List.countP_cons]
    · by_cases hd : "leads" = t
      · subst hd
        simp [db_load_ops, is_sql_to, List.countP_cons]
      · by_cases ht : "transactions" = t
        · subst ht
          simp [db_load_ops, is_sql_to, List.countP_cons]
        · have : (db_load_ops pu pl pd pt).countP (is_sql_to t) = 0 := by
            simp [db_load_ops, is_sql_to, List.countP_cons, beq_iff_eq, hu,
              hl, hd, ht]
          omega

lemma run_final_files (pu : List User) (pl : List Listing) (pd : List Lead)
    (pt : List Transaction) (fails : Nat → Bool)
    (f0 : String → Option TableData) (d0 : String → List TableData) :
    (run_export_and_load pu pl pd pt fails f0 d0).final.files =
      (execOps fails (init_state f0 d0) (csv_export_ops pu pl pd pt)).files := by
  unfold run_export_and_load
  set s1 := execOps fails (init_state f0 d0) (csv_export_ops pu pl pd pt)
    with hs1
  set s2 := execOps fails s1 (db_load_ops pu pl pd pt) with hs2
  have h21 : s2.files = s1.files := by
    rw [hs2]
    exact execOps_files_of_no_csv fails _ (db_load_ops_no_csv pu pl pd pt) s1
  by_cases hr : s2.raised = true
  · rw [if_pos hr]
    show (execOps fails { s2 with raised := false } handler_ops).files =
      s1.files
    rw [execOps_files_of_no_csv fails handler_ops handler_ops_no_csv]
    exact h21
  · rw [if_neg hr]
    exact h21

lemma run_final_trace (pu : List User) (pl : List Listing) (pd : List Lead)
    (pt : List Transaction) (fails : Nat → Bool)
    (f0 : String → Option TableData) (d0 : String → List TableData) :
    ∃ t1 t2 : List SinkOp, t1.Sublist (db_load_ops pu pl pd pt) ∧
      t2.Sublist handler_ops ∧
      (run_export_and_load pu pl pd pt fails f0 d0).final.trace =
        csv_export_ops pu pl pd pt ++ (t1 ++ t2) := by
  unfold run_export_and_load
  set s1 := execOps fails (init_state f0 d0) (csv_export_ops pu pl pd pt)
    with hs1
  set s2 := execOps fails s1 (db_load_ops pu pl pd pt) with hs2
  have htr1 : s1.trace = csv_export_ops pu pl pd pt := by
    rw [hs1, csv_phase_eq]
  obtain ⟨t1, ht1, hsub1⟩ := execOps_trace_sublist fails
    (db_load_ops pu pl pd pt) s1
  have htr2 : s2.trace = csv_export_ops pu pl pd pt ++ t1 := by
    rw [hs2, ht1, htr1]
  by_cases hr : s2.raised = true
  · rw [if_pos hr]
    obtain ⟨t2, ht2, hsub2⟩ := execOps_trace_sublist fails handler_ops
      { s2 with raised := false }
    refine ⟨t1, t2, hsub1, hsub2, ?_⟩
    show (execOps fails { s2 with raised := false } handler_ops).trace = _
    rw [ht2]
    show s2.trace ++ t2 = _
    rw [htr2, List.append_assoc]
  · rw [if_neg hr]
    refine ⟨t1, [], hsub1, List.nil_sublist _, ?_⟩
    show s2.trace = _
    rw [htr2, List.append_nil]

lemma run_final_db (pu : List User) (pl : List Listing) (pd : List Lead)
    (pt : List Transaction) (fails : Nat → Bool)
    (f0 : String → Option TableData) (d0 : String → List TableData)
    (t : String) :
    ∃ x, (run_export_and_load pu pl pd pt fails f0 d0).final.db t =
      d0 t ++ x := by
  unfold run_export_and_load
  set s1 := execOps fails (init_state f0 d0) (csv_export_ops pu pl pd pt)
    with hs1
  set s2 := execOps fails s1 (db_load_ops pu pl pd pt) with hs2
  have hdb1 : s1.db = d0 := by
    rw [hs1, csv_phase_eq]
  obtain ⟨x2, hx2⟩ := execOps_db_extends fails (db_load_ops pu pl pd pt) s1 t
  have hdb2 : s2.db t = d0 t ++ x2 := by
    rw [hs2, hx2, hdb1]
  by_cases hr : s2.raised = true
  · rw [if_pos hr]
    obtain ⟨x3, hx3⟩ := execOps_db_extends fails handler_ops
      { s2 with raised := false } t
    refine ⟨x2 ++ x3, ?_⟩
    show (execOps fails { s2 with raised := false } handler_ops).db t = _
    rw [hx3]
    show s2.db t ++ x3 = _
    rw [hdb2, List.append_assoc]
  · rw [if_neg hr]
    exact ⟨x2, hdb2⟩

lemma run_status_facts (pu : List User) (pl : List Listing) (pd : List Lead)
    (pt : List Transaction) (fails : Nat → Bool)
    (f0 : String → Option TableData) (d0 : String → List TableData) :
    (run_export_and_load pu pl pd pt fails f0 d0).final.raised = false ∧
    (run_export_and_load pu pl pd pt fails f0 d0).exitedNormally = true ∧
    (run_export_and_load pu pl pd pt fails f0 d0).handlerCount =
      (run_export_and_load pu pl pd pt fails f0 d0).final.failedOps ∧
    (run_export_and_load pu pl pd pt fails f0 d0).final.failedOps ≤ 1 := by
  unfold run_export_and_load
  set s1 := execOps fails (init_state f0 d0) (csv_export_ops pu pl pd pt)
    with hs1
  set s2 := execOps fails s1 (db_load_ops pu pl pd pt) with hs2
  have hr1 : s1.raised = false := by rw [hs1, csv_phase_eq]
  have hf1 : s1.failedOps = 0 := by rw [hs1, csv_phase_eq]
  have hcount : s2.failedOps = s1.failedOps + (s2.raised).toNat := by
    rw [hs2]
    exact execOps_failed_count fails (db_load_ops pu pl pd pt) s1 hr1
  by_cases hr : s2.raised = true
  · rw [if_pos hr]
    have hs3 : execOps fails { s2 with raised := false } handler_ops =
        { s2 with raised := false
                  trace := s2.trace ++ [SinkOp.msg] } := by
      show execOp fails { s2 with raised := false } SinkOp.msg = _
      rw [execOp_msg_eq fails { s2 with raised := false } rfl]
    rw [hs3]
    have hfo : s2.failedOps = 1 := by
      rw [hcount, hf1, hr]
      rfl
    exact ⟨rfl, rfl, hfo.symm, le_of_eq hfo⟩
  · rw [if_neg hr]
    have hr2 : s2.raised = false := eq_false_of_ne_true hr
    have hfo : s2.failedOps = 0 := by
      rw [hcount, hf1, hr2]
      rfl
    exact ⟨hr2, by rw [hr2]; rfl, hfo.symm,
      le_trans (le_of_eq hfo) (Nat.zero_le 1)⟩

lemma run_trace_sql_count (pu : List User) (pl : List Listing)
    (pd : List Lead) (pt : List Transaction) (fails : Nat → Bool)
    (f0 : String → Option TableData) (d0 : String → List TableData)
    (t : String) :
    ((run_export_and_load pu pl pd pt fails f0 d0).final.trace.countP
      (is_sql_to t)) ≤ 1 := by
  obtain ⟨t1, t2, hsub1, hsub2, htr⟩ := run_final_trace pu pl pd pt fails f0 d0
  rw [htr, List.countP_append, List.countP_append]
  have h1 : (csv_export_ops pu pl pd pt).countP (is_sql_to t) = 0 :=
    csv_export_ops_countP_sql pu pl pd pt t
  have h2 : t1.countP (is_sql_to t) ≤
      (db_load_ops pu pl pd pt).countP (is_sql_to t) :=
    hsub1.countP_le _
  have h3 : t2.countP (is_sql_to t) ≤ handler_ops.countP (is_sql_to t) :=
    hsub2.countP_le _
  have h4 := db_load_ops_countP_sql_le_one pu pl pd pt t
  have h5 : handler_ops.countP (is_sql_to t) = 0 := handler_ops_countP_sql t
  omega

/-- C10: the lead generator's lookup of the referenced listing's
`created_date` is total: for any `listing_id` sampled from
`[1, numListings]`, the generated listings table contains exactly one row
with that id, and the filter-then-first lookup succeeds, returning that
row's creation date. -/
theorem c10_lookup_total (cfg : Config) (ld : Nat → ListingDraw)
    (lid : Nat) (h1 : 1 ≤ lid) (h2 : lid ≤ cfg.numListings) :
    ((generate_listings cfg ld).filter
        (fun l => l.listing_id == lid)).length = 1 ∧
      lookup_created (generate_listings cfg ld) lid =
        some ((ld lid).created_date) := by
  constructor
  · rw [generate_listings_filter cfg ld h1 h2]
    rfl
  · exact lookup_created_generate_listings cfg ld h1 h2

/-- Witness for `c10_lookup_total` at the concrete configuration `cfgW`
with `listing_id = 1`. -/
theorem c10_lookup_total_witness :
    ((generate_listings cfgW ldW).filter
        (fun l => l.listing_id == 1)).length = 1 ∧
      lookup_created (generate_listings cfgW ldW) 1 =
        some ((ldW 1).created_date) :=
  c10_lookup_total cfgW ldW 1 (le_refl 1) (by norm_num [cfgW])

/-- C1: for draw streams within the ranges the random primitives sample
from, the leads loop succeeds, and every generated lead's `lead_date` is
at least the `created_date` of the listing its `listing_id` references
(as looked up by the code's filter) and at most the end of the window. -/
theorem c1_lead_dates_in_bounds (cfg : Config) (ld : Nat → ListingDraw)
    (dd : Nat → LeadDraw) (hld : ∀ k, ListingDrawWF cfg (ld k))
    (hdd : ∀ k, LeadDrawWF cfg (dd k)) :
    ∃ ls, generate_leads cfg (generate_listings cfg ld) dd = some ls ∧
      ∀ l ∈ ls, ∃ c,
        lookup_created (generate_listings cfg ld) l.listing_id = some c ∧
        c ≤ l.lead_date ∧ l.lead_date ≤ cfg.endDate := by
  have hdd2 : ∀ k, 1 ≤ (dd k).listing_id ∧
      (dd k).listing_id ≤ cfg.numListings :=
    fun k => ⟨(hdd k).1, (hdd k).2.1⟩
  refine ⟨_, generate_leads_eq_some cfg ld dd hdd2, ?_⟩
  intro l hl
  rcases List.mem_map.mp hl with ⟨k, hk, rfl⟩
  obtain ⟨_, _, _, _, _, _, _, hced, _⟩ := hld (dd k).listing_id
  have hdate := (hdd k).2.2.2.2 ((ld (dd k).listing_id).created_date) hced
  exact ⟨(ld (dd k).listing_id).created_date,
    lookup_created_generate_listings cfg ld (hdd2 k).1 (hdd2 k).2,
    hdate.1, hdate.2⟩

/-- Witness for `c1_lead_dates_in_bounds` at the concrete configuration
`cfgW` and the concrete draw streams `ldW`, `ddW`. -/
theorem c1_lead_dates_in_bounds_witness :
    ∃ ls, generate_leads cfgW (generate_listings cfgW ldW) ddW = some ls ∧
      ∀ l ∈ ls, ∃ c,
        lookup_created (generate_listings cfgW ldW) l.listing_id = some c ∧
        c ≤ l.lead_date ∧ l.lead_date ≤ cfgW.endDate :=
  c1_lead_dates_in_bounds cfgW ldW ddW
    (fun _ => by norm_num [ListingDrawWF, ldW, cfgW])
    (fun _ => ⟨by norm_num [ddW], by norm_num [ddW, cfgW],
      by norm_num [ddW], by norm_num [ddW, cfgW],
      fun s hs => ⟨le_refl s, hs⟩⟩)

/-- C3: every generated listing's price equals
`round2 (base_price category * emirate_multiplier emirate * u)` for some
`u` in `[0.7, 1.5]`, the range `random.uniform(0.7, 1.5)` samples from. -/
theorem c3_price_formula (cfg : Config) (ld : Nat → ListingDraw)
    (hld : ∀ k, ListingDrawWF cfg (ld k)) :
    ∀ l ∈ generate_listings cfg ld, ∃ u : ℚ,
      (7 / 10 : ℚ) ≤ u ∧ u ≤ 3 / 2 ∧
      l.price =
        round2 (base_price l.category * emirate_multiplier l.emirate * u) := by
  intro l hl
  obtain ⟨k, hk, rfl⟩ := mem_generate_listings hl
  obtain ⟨_, _, _, _, hE, hF, _, _, _⟩ := hld (k + 1)
  exact ⟨(ld (k + 1)).price_u, hE, hF, rfl⟩

/-- Witness for `c3_price_formula` at the concrete first listing generated
from `cfgW`, `ldW`. -/
theorem c3_price_formula_witness :
    ∃ u : ℚ, (7 / 10 : ℚ) ≤ u ∧ u ≤ 3 / 2 ∧
      (generate_listing 1 (ldW 1)).price =
        round2 (base_price (generate_listing 1 (ldW 1)).category *
          emirate_multiplier (generate_listing 1 (ldW 1)).emirate * u) :=
  c3_price_formula cfgW ldW (fun _ => by norm_num [ListingDrawWF, ldW, cfgW])
    (generate_listing 1 (ldW 1))
    (by
      show generate_listing 1 (ldW 1) ∈
        [generate_listing 1 (ldW 1), generate_listing 2 (ldW 2)]
      exact List.mem_cons_self _ _)

/-- C6: every generated listing has a positive price and an owner
`user_id` in `[1, numUsers]`. -/
theorem c6_price_pos_owner_in_range (cfg : Config) (ld : Nat → ListingDraw)
    (hld : ∀ k, ListingDrawWF cfg (ld k)) :
    ∀ l ∈ generate_listings cfg ld,
      0 < l.price ∧ 1 ≤ l.user_id ∧ l.user_id ≤ cfg.numUsers := by
  intro l hl
  obtain ⟨k, hk, rfl⟩ := mem_generate_listings hl
  obtain ⟨hA, hB, hC, hD, hE, _, _, _, _⟩ := hld (k + 1)
  refine ⟨?_, hA, hB⟩
  show (0 : ℚ) <
    round2 (base_price (CATEGORIES.getD (ld (k + 1)).category_idx "") *
      emirate_multiplier (EMIRATES.getD (ld (k + 1)).emirate_idx "") *
      (ld (k + 1)).price_u)
  have h1 : (1 : ℚ) ≤
      base_price (CATEGORIES.getD (ld (k + 1)).category_idx "") *
        emirate_multiplier (EMIRATES.getD (ld (k + 1)).emirate_idx "") *
        (ld (k + 1)).price_u :=
    listing_price_raw_ge_one (base_price_lb hC) (emirate_multiplier_lb hD) hE
  exact round2_pos_of_one_le h1

/-- Witness for `c6_price_pos_owner_in_range` at the concrete first
listing generated from `cfgW`, `ldW`. -/
theorem c6_price_pos_owner_in_range_witness :
    0 < (generate_listing 1 (ldW 1)).price ∧
      1 ≤ (generate_listing 1 (ldW 1)).user_id ∧
      (generate_listing 1 (ldW 1)).user_id ≤ cfgW.numUsers :=
  c6_price_pos_owner_in_range cfgW ldW (fun _ => by norm_num [ListingDrawWF, ldW, cfgW])
    (generate_listing 1 (ldW 1))
    (by
      show generate_listing 1 (ldW 1) ∈
        [generate_listing 1 (ldW 1), generate_listing 2 (ldW 2)]
      exact List.mem_cons_self _ _)

/-- C2 (refuting the determinism claim on the code as written): the output
is not a function of the seed and the configuration alone.  The script
seeds `random` and `numpy` but never seeds Faker, and every date is drawn
through `fake.date_between`, i.e. through Faker's own unseeded generator.
Here are two runs with identical configuration and identical
seeded-module draws (`emirate_idx`, `user_type_idx`) whose Faker draws
are both inside the documented `date_between` range, yet the generated
users tables differ.  This contradicts the script's own comment "Set
random seeds for reproducibility (same data each time you run)". -/
theorem c2_output_depends_on_unseeded_faker :
    (∀ k, UserDrawWF cfgW (ud_runA k)) ∧
    (∀ k, UserDrawWF cfgW (ud_runB k)) ∧
    (∀ k, (ud_runA k).emirate_idx = (ud_runB k).emirate_idx ∧
      (ud_runA k).user_type_idx = (ud_runB k).user_type_idx) ∧
    generate_users cfgW ud_runA ≠ generate_users cfgW ud_runB := by
  refine ⟨fun k => ?_, fun k => ?_, fun k => ⟨rfl, rfl⟩, ?_⟩
  · show UserDrawWF cfgW { signup_date := 0, emirate_idx := 0, user_type_idx := 0 }
    decide
  · show UserDrawWF cfgW { signup_date := 730, emirate_idx := 0, user_type_idx := 0 }
    decide
  · decide

/-- C4: every generated transaction of kind "subscription" has an amount
in the fixed tier set; every transaction of kind "featured_listing" has an
amount (after rounding to two decimals) within `[100, 500]`. -/
theorem c4_transaction_amounts (cfg : Config) (td : Nat → TxDraw)
    (htd : ∀ k, TxDrawWF cfg (td k)) :
    ∀ t ∈ generate_transactions cfg td,
      (t.transaction_type = "subscription" →
        t.amount ∈ SUBSCRIPTION_TIERS) ∧
      (t.transaction_type = "featured_listing" →
        (100 : ℚ) ≤ t.amount ∧ t.amount ≤ 500) := by
  intro t ht
  obtain ⟨k, hk, rfl⟩ := mem_generate_transactions ht
  obtain ⟨_, _, hT, hTier, hFa, hFb, _, _⟩ := htd (k + 1)
  constructor
  · intro hsub
    have htt : TRANSACTION_TYPES.getD (td (k + 1)).type_idx "" =
        "subscription" := hsub
    show round2
        (if TRANSACTION_TYPES.getD (td (k + 1)).type_idx "" = "subscription"
          then SUBSCRIPTION_TIERS.getD (td (k + 1)).tier_idx 0
          else (td (k + 1)).featured_amount) ∈ SUBSCRIPTION_TIERS
    rw [if_pos htt]
    generalize hgen : (td (k + 1)).tier_idx = i at hTier
    interval_cases i
    · show round2 (500 : ℚ) ∈ SUBSCRIPTION_TIERS
      rw [show (500 : ℚ) = ((500 : Int) : ℚ) by norm_num, round2_intCast]
      norm_num [SUBSCRIPTION_TIERS]
    · show round2 (1000 : ℚ) ∈ SUBSCRIPTION_TIERS
      rw [show (1000 : ℚ) = ((1000 : Int) : ℚ) by norm_num, round2_intCast]
      norm_num [SUBSCRIPTION_TIERS]
    · show round2 (2000 : ℚ) ∈ SUBSCRIPTION_TIERS
      rw [show (2000 : ℚ) = ((2000 : Int) : ℚ) by norm_num, round2_intCast]
      norm_num [SUBSCRIPTION_TIERS]
    · show round2 (5000 : ℚ) ∈ SUBSCRIPTION_TIERS
      rw [show (5000 : ℚ) = ((5000 : Int) : ℚ) by norm_num, round2_intCast]
      norm_num [SUBSCRIPTION_TIERS]
  · intro hfeat
    have htt : TRANSACTION_TYPES.getD (td (k + 1)).type_idx "" =
        "featured_listing" := hfeat
    have hne : ¬ TRANSACTION_TYPES.getD (td (k + 1)).type_idx "" =
        "subscription" := by
      rw [htt]
      decide
    constructor
    · show (100 : ℚ) ≤ round2
        (if TRANSACTION_TYPES.getD (td (k + 1)).type_idx "" = "subscription"
          then SUBSCRIPTION_TIERS.getD (td (k + 1)).tier_idx 0
          else (td (k + 1)).featured_amount)
      rw [if_neg hne]
      have h := @le_round2 100 ((td (k + 1)).featured_amount)
        (by exact_mod_cast hFa)
      push_cast at h
      exact h
    · show round2
        (if TRANSACTION_TYPES.getD (td (k + 1)).type_idx "" = "subscription"
          then SUBSCRIPTION_TIERS.getD (td (k + 1)).tier_idx 0
          else (td (k + 1)).featured_amount) ≤ (500 : ℚ)
      rw [if_neg hne]
      have h := @round2_le 500 ((td (k + 1)).featured_amount)
        (by exact_mod_cast hFb)
      push_cast at h
      exact h

/-- Witness for `c4_transaction_amounts`: the first transaction generated
from `cfgW`, `tdW` is a subscription with a tier amount. -/
theorem c4_transaction_amounts_witness :
    (generate_transaction 1 (tdW 1)).amount ∈ SUBSCRIPTION_TIERS :=
  ((c4_transaction_amounts cfgW tdW
      (fun _ => by norm_num [TxDrawWF, tdW, cfgW])
      (generate_transaction 1 (tdW 1))
      (by
        show generate_transaction 1 (tdW 1) ∈
          [generate_transaction 1 (tdW 1), generate_transaction 2 (tdW 2)]
        exact List.mem_cons_self _ _)).1) rfl

/-- C5: with the script's configuration constants, each table's id column
is exactly `[1, ..., N]` in order (no duplicates or gaps), and the row
counts are exactly 5000 users, 8000 listings, 15000 leads and 2000
transactions. -/
theorem c5_sequential_ids_and_counts (e : Int) (ud : Nat → UserDraw)
    (ld : Nat → ListingDraw) (dd : Nat → LeadDraw) (td : Nat → TxDraw)
    (hdd : ∀ k, 1 ≤ (dd k).listing_id ∧ (dd k).listing_id ≤ NUM_LISTINGS) :
    ((generate_users (cfgDefault e) ud).map User.user_id =
        (List.range NUM_USERS).map (· + 1) ∧
      (generate_users (cfgDefault e) ud).length = 5000) ∧
    ((generate_listings (cfgDefault e) ld).map Listing.listing_id =
        (List.range NUM_LISTINGS).map (· + 1) ∧
      (generate_listings (cfgDefault e) ld).length = 8000) ∧
    (∃ ls, generate_leads (cfgDefault e) (generate_listings (cfgDefault e) ld)
        dd = some ls ∧
      ls.map Lead.lead_id = (List.range NUM_LEADS).map (· + 1) ∧
      ls.length = 15000) ∧
    ((generate_transactions (cfgDefault e) td).map
        Transaction.transaction_id =
        (List.range NUM_TRANSACTIONS).map (· + 1) ∧
      (generate_transactions (cfgDefault e) td).length = 2000) := by
  refine ⟨⟨?_, ?_⟩, ⟨?_, ?_⟩, ?_, ⟨?_, ?_⟩⟩
  · unfold generate_users
    rw [List.map_map]
    rfl
  · simp [generate_users, cfgDefault, NUM_USERS]
  · unfold generate_listings
    rw [List.map_map]
    rfl
  · simp [generate_listings, cfgDefault, NUM_LISTINGS]
  · refine ⟨_, generate_leads_eq_some (cfgDefault e) ld dd hdd, ?_, ?_⟩
    · rw [List.map_map]
      exact List.map_id' _
    · simp [cfgDefault, NUM_LEADS]
  · unfold generate_transactions
    rw [List.map_map]
    rfl
  · simp [generate_transactions, cfgDefault, NUM_TRANSACTIONS]

/-- Witness for `c5_sequential_ids_and_counts` at `e = 0` and the concrete
draw streams. -/
theorem c5_sequential_ids_and_counts_witness :
    ((generate_users (cfgDefault 0) udW).map User.user_id =
        (List.range NUM_USERS).map (· + 1) ∧
      (generate_users (cfgDefault 0) udW).length = 5000) ∧
    ((generate_listings (cfgDefault 0) ldW).map Listing.listing_id =
        (List.range NUM_LISTINGS).map (· + 1) ∧
      (generate_listings (cfgDefault 0) ldW).length = 8000) ∧
    (∃ ls, generate_leads (cfgDefault 0) (generate_listings (cfgDefault 0) ldW)
        ddW = some ls ∧
      ls.map Lead.lead_id = (List.range NUM_LEADS).map (· + 1) ∧
      ls.length = 15000) ∧
    ((generate_transactions (cfgDefault 0) tdW).map
        Transaction.transaction_id =
        (List.range NUM_TRANSACTIONS).map (· + 1) ∧
      (generate_transactions (cfgDefault 0) tdW).length = 2000) :=
  c5_sequential_ids_and_counts 0 udW ldW ddW tdW
    (fun _ => by norm_num [ddW, NUM_LISTINGS])

/-- C7 counterexample: `users.csv` is one of the output files, but its
header row (the code's dict keys) is not the attribute list the spec's
section 3 gives for the User entity (`id`, `signup_date`, `region`,
`role`). -/
theorem c7_headers_differ_from_spec_names :
    ("users.csv", users_csv_columns) ∈ csv_outputs ∧
    users_csv_columns ≠ spec_user_attributes := by
  constructor
  · show _ ∈ [("users.csv", users_csv_columns),
      ("listings.csv", listings_csv_columns),
      ("leads.csv", leads_csv_columns),
      ("transactions.csv", transactions_csv_columns)]
    exact List.mem_cons_self _ _
  · decide

/-- C7 amended: each output file is named for its table and carries a
header row; the column names are the code's field names, which equal the
spec's section-3 attribute names up to the renaming `id → ⟨table⟩_id`,
`region → emirate`, `role → user_type`, `owner_user_id → user_id`,
`kind → transaction_type`. -/
theorem c7_headers_are_code_columns :
    csv_outputs =
      [("users.csv", spec_user_attributes.map user_attr_rename),
       ("listings.csv", spec_listing_attributes.map listing_attr_rename),
       ("leads.csv", spec_lead_attributes.map lead_attr_rename),
       ("transactions.csv",
        spec_transaction_attributes.map transaction_attr_rename)] := by
  decide

/-- C8: the four CSV exports all execute before any database operation
runs (they form a prefix of the executed-operation trace and nothing later
is a `to_csv`); whatever the store outcome, the final file state holds the
four exported tables; and each database table only ever gets rows
appended to its pre-existing contents. -/
theorem c8_export_precedes_append_and_append_is_additive (pu : List User)
    (pl : List Listing) (pd : List Lead) (pt : List Transaction)
    (fails : Nat → Bool) (f0 : String → Option TableData)
    (d0 : String → List TableData) :
    ((run_export_and_load pu pl pd pt fails f0 d0).final.files "users.csv" =
        some (TableData.users pu) ∧
      (run_export_and_load pu pl pd pt fails f0 d0).final.files
          "listings.csv" = some (TableData.listings pl) ∧
      (run_export_and_load pu pl pd pt fails f0 d0).final.files
          "leads.csv" = some (TableData.leads pd) ∧
      (run_export_and_load pu pl pd pt fails f0 d0).final.files
          "transactions.csv" = some (TableData.transactions pt)) ∧
    (∃ tail, (run_export_and_load pu pl pd pt fails f0 d0).final.trace =
        csv_export_ops pu pl pd pt ++ tail ∧
      tail.countP is_csv = 0) ∧
    ((∃ x, (run_export_and_load pu pl pd pt fails f0 d0).final.db "users" =
        d0 "users" ++ x) ∧
      (∃ x, (run_export_and_load pu pl pd pt fails f0 d0).final.db
          "listings" = d0 "listings" ++ x) ∧
      (∃ x, (run_export_and_load pu pl pd pt fails f0 d0).final.db
          "leads" = d0 "leads" ++ x) ∧
      (∃ x, (run_export_and_load pu pl pd pt fails f0 d0).final.db
          "transactions" = d0 "transactions" ++ x)) := by
  refine ⟨⟨?_, ?_, ?_, ?_⟩, ?_, ?_, ?_, ?_, ?_⟩
  · rw [run_final_files, csv_phase_eq]
    simp
  · rw [run_final_files, csv_phase_eq]
    simp
  · rw [run_final_files, csv_phase_eq]
    simp
  · rw [run_final_files, csv_phase_eq]
    simp
  · obtain ⟨t1, t2, hsub1, hsub2, htr⟩ :=
      run_final_trace pu pl pd pt fails f0 d0
    refine ⟨t1 ++ t2, htr, ?_⟩
    rw [List.countP_append]
    have h1 : t1.countP is_csv ≤ (db_load_ops pu pl pd pt).countP is_csv :=
      hsub1.countP_le _
    have h2 : t2.countP is_csv ≤ handler_ops.countP is_csv :=
      hsub2.countP_le _
    have h3 := db_load_ops_countP_csv pu pl pd pt
    have h4 := handler_ops_countP_csv
    omega
  · exact run_final_db pu pl pd pt fails f0 d0 "users"
  · exact run_final_db pu pl pd pt fails f0 d0 "listings"
  · exact run_final_db pu pl pd pt fails f0 d0 "leads"
  · exact run_final_db pu pl pd pt fails f0 d0 "transactions"

/-- C9: whatever database calls fail, the exception is cleared by the one
top-level handler (never escapes: `raised` ends false and the process
exits normally on both paths), the handler runs exactly as many times as
operations failed (at most once, since the first failure skips the rest),
and no `to_sql` call on any of the four tables is ever attempted twice. -/
theorem c9_store_failure_caught_once_normal_exit (pu : List User)
    (pl : List Listing) (pd : List Lead) (pt : List Transaction)
    (fails : Nat → Bool) (f0 : String → Option TableData)
    (d0 : String → List TableData) :
    (run_export_and_load pu pl pd pt fails f0 d0).final.raised = false ∧
    (run_export_and_load pu pl pd pt fails f0 d0).exitedNormally = true ∧
    (run_export_and_load pu pl pd pt fails f0 d0).handlerCount =
      (run_export_and_load pu pl pd pt fails f0 d0).final.failedOps ∧
    (run_export_and_load pu pl pd pt fails f0 d0).final.failedOps ≤ 1 ∧
    ((run_export_and_load pu pl pd pt fails f0 d0).final.trace.countP
        (is_sql_to "users") ≤ 1 ∧
      (run_export_and_load pu pl pd pt fails f0 d0).final.trace.countP
        (is_sql_to "listings") ≤ 1 ∧
      (run_export_and_load pu pl pd pt fails f0 d0).final.trace.countP
        (is_sql_to "leads") ≤ 1 ∧
      (run_export_and_load pu pl pd pt fails f0 d0).final.trace.countP
        (is_sql_to "transactions") ≤ 1) := by
  obtain ⟨h1, h2, h3, h4⟩ := run_status_facts pu pl pd pt fails f0 d0
  exact ⟨h1, h2, h3, h4,
    run_trace_sql_count pu pl pd pt fails f0 d0 "users",
    run_trace_sql_count pu pl pd pt fails f0 d0 "listings",
    run_trace_sql_count pu pl pd pt fails f0 d0 "leads",
    run_trace_sql_count pu pl pd pt fails f0 d0 "transactions"⟩
